import Mathlib

/-!
Shallow embedding of the learn-wgpu application core (src/lib.rs).

The embedding models the long-lived `State` struct, its mutating methods
(`resize`, `input`, `update`), the redraw handler `on_redraw_requested`,
the keyboard handler `on_keyboard_input`, and the event-loop dispatch in
`run`.  GPU-side effects (surface (re)configuration, draw submission,
logging, exiting the event loop, redraw requests) are recorded as an
explicit list of `Action`s so that claims about "which calls happen" can
be stated as properties of the emitted trace.  The outcome of
`State::render`'s frame acquisition is an environment input
(`RenderResult`); a successful render submits one draw.  Floating-point
(`f64`) quantities — cursor coordinates and clear-color channels — are
modelled as rationals, with Rust's `/` as exact rational division.
-/

namespace LearnWgpu

/-- `winit::dpi::PhysicalSize<u32>`. -/
structure PhysicalSize where
  width : Nat
  height : Nat
deriving DecidableEq, Repr

/-- A surface texture format from `surface.get_capabilities(..).formats`;
only its sRGB flag (`is_srgb`) matters to the code. `id` distinguishes
formats. -/
structure TextureFormat where
  id : Nat
  srgb : Bool
deriving DecidableEq, Repr

/-- The fields of `wgpu::SurfaceConfiguration` the code reads or writes
after construction: width, height, and the negotiated format. -/
structure SurfaceConfiguration where
  width : Nat
  height : Nat
  format : TextureFormat
deriving DecidableEq, Repr

/-- `wgpu::Color`: four `f64` channels, modelled as rationals. -/
structure Color where
  r : ℚ
  g : ℚ
  b : ℚ
  a : ℚ
deriving DecidableEq, Repr

/-- A compiled render pipeline, identified by the shader it was built
from (`shader.wgsl` vs `shader2.wgsl`). -/
structure Pipeline where
  shader : Nat
deriving DecidableEq, Repr

/-- The key codes the program distinguishes. -/
inductive KeyCode
  | space
  | escape
  | otherKey
deriving DecidableEq, Repr

/-- `wgpu::SurfaceError`. -/
inductive SurfaceError
  | Lost
  | Outdated
  | OutOfMemory
  | Other
  | Timeout
deriving DecidableEq, Repr

/-- The outcome of `State::render`'s frame acquisition, supplied by the
environment on each redraw. -/
inductive RenderResult
  | ok
  | err (e : SurfaceError)
deriving DecidableEq, Repr

/-- The window events the program inspects.  `keyboardInput` carries the
element state (`pressed`) and the physical key (`none` models a
non-`Code` physical key). -/
inductive WindowEvent
  | closeRequested
  | keyboardInput (pressed : Bool) (key : Option KeyCode)
  | resized (w h : Nat)
  | redrawRequested
  | cursorMoved (x y : ℚ)
  | otherEvent
deriving DecidableEq, Repr

/-- Observable effects emitted by the handlers:
`requestRedraw` = `window().request_redraw()`;
`resizeCall w h` = an invocation of `State::resize` with argument (w,h)
(the spec's `configure(size)` operation);
`surfaceConfigure w h` = an actual `surface.configure` call with a
configuration of that width/height;
`draw` = a command buffer with one draw was submitted and presented;
`logError`/`logWarn` = severity-tagged log output;
`exitLoop` = `control_flow.exit()`. -/
inductive Action
  | requestRedraw
  | resizeCall (w h : Nat)
  | surfaceConfigure (w h : Nat)
  | draw
  | logError
  | logWarn
  | exitLoop
deriving DecidableEq, Repr

/-- `true` exactly on `Action.resizeCall`. -/
def isResizeCall : Action → Bool
  | .resizeCall _ _ => true
  | _ => false

/-- `true` exactly on `Action.surfaceConfigure`. -/
def isSurfaceConfigure : Action → Bool
  | .surfaceConfigure _ _ => true
  | _ => false

/-- The mutable fields of `State` that the claims concern. -/
structure State where
  surface_configuration : SurfaceConfiguration
  size : PhysicalSize
  clear_color : Color
  render_pipelines : List Pipeline
  active_render_pipeline_index : Nat
  n_indices : Nat
deriving DecidableEq, Repr

/-- Surface-format selection in `State::new`:
`surface_caps.formats.iter().find(|f| f.is_srgb()).copied().unwrap_or(surface_caps.formats[0])`.
The capability list is nonempty (the code indexes `formats[0]`), so it is
passed as a head element plus a tail. -/
def surfaceFormat (f0 : TextureFormat) (rest : List TextureFormat) : TextureFormat :=
  ((f0 :: rest).find? fun f => f.srgb).getD f0

/-- `State::new`: builds the initial configuration from the window's
inner size and the chosen format, applies it with `surface.configure`
(unconditionally), compiles the two pipelines, and initialises the
derived render state (`active_render_pipeline_index = 0`, clear color
0.03/0.03/0.03/1, `n_indices = INDICES.len() = 10`).  Returns the state
together with the emitted actions. -/
def stateNew (sz : PhysicalSize) (f0 : TextureFormat) (rest : List TextureFormat) :
    State × List Action :=
  let fmt := surfaceFormat f0 rest
  ({ surface_configuration := { width := sz.width, height := sz.height, format := fmt }
     size := sz
     clear_color := { r := 3/100, g := 3/100, b := 3/100, a := 1 }
     render_pipelines := [{ shader := 0 }, { shader := 1 }]
     active_render_pipeline_index := 0
     n_indices := 10 },
   [Action.surfaceConfigure sz.width sz.height])

/-- `State::resize`: when both dimensions are strictly positive, stores
the new size, writes it into the surface configuration, and calls
`surface.configure`; otherwise does nothing. -/
def State.resize (s : State) (new_size : PhysicalSize) : State × List Action :=
  if 0 < new_size.width ∧ 0 < new_size.height then
    ({ s with
        size := new_size
        surface_configuration :=
          { s.surface_configuration with
              width := new_size.width
              height := new_size.height } },
     [Action.surfaceConfigure new_size.width new_size.height])
  else
    (s, [])

/-- `State::input`: consumes `CursorMoved` (recomputing the clear color
from the cursor position normalised by the stored size) and a pressed
Space key (advancing the pipeline index modulo 2); returns whether the
event was consumed. -/
def State.input (s : State) (event : WindowEvent) : State × Bool :=
  match event with
  | .cursorMoved px py =>
      let x := px / (s.size.width : ℚ)
      let y := py / (s.size.height : ℚ)
      ({ s with clear_color := { r := x, g := y, b := (x + y) / 2, a := 1 } }, true)
  | .keyboardInput pressed key =>
      match pressed, key with
      | true, some KeyCode.space =>
          ({ s with
              active_render_pipeline_index :=
                (s.active_render_pipeline_index + 1) % 2 },
           true)
      | _, _ => (s, false)
  | _ => (s, false)

/-- `State::update`: a no-op placeholder. -/
def State.update (s : State) : State := s

/-- The actions `State::render` itself performs, as a function of the
acquisition outcome: a successful acquisition records and submits
exactly one draw and presents; an error submits nothing. -/
def renderActions : RenderResult → List Action
  | .ok => [Action.draw]
  | .err _ => []

/-- The `match state.render()` arms of `on_redraw_requested`:
`Ok` does nothing further; `Lost`/`Outdated` call
`state.resize(state.size)`; `OutOfMemory`/`Other` log an error and exit
the event loop; `Timeout` logs a warning. -/
def matchRenderError (s : State) : RenderResult → State × List Action
  | .ok => (s, [])
  | .err .Lost =>
      let p := s.resize s.size
      (p.1, Action.resizeCall s.size.width s.size.height :: p.2)
  | .err .Outdated =>
      let p := s.resize s.size
      (p.1, Action.resizeCall s.size.width s.size.height :: p.2)
  | .err .OutOfMemory => (s, [Action.logError, Action.exitLoop])
  | .err .Other => (s, [Action.logError, Action.exitLoop])
  | .err .Timeout => (s, [Action.logWarn])

/-- `on_redraw_requested`: requests the next redraw, runs `update`, runs
`render` (whose acquisition outcome `r` is an environment input), and
classifies the outcome. -/
def on_redraw_requested (s : State) (r : RenderResult) : State × List Action :=
  let s1 := s.update
  let p := matchRenderError s1 r
  (p.1, Action.requestRedraw :: (renderActions r ++ p.2))

/-- `on_keyboard_input`: a pressed Escape exits the event loop; all
other keys do nothing. -/
def on_keyboard_input (pressed : Bool) (key : Option KeyCode) : List Action :=
  match pressed, key with
  | true, some KeyCode.escape => [Action.exitLoop]
  | _, _ => []

/-- One iteration of the event-loop closure in `run` for an event on the
state's own window: `state.input` is consulted first and, when it
consumes the event, nothing else runs; otherwise the event is
dispatched to the close/keyboard/resize/redraw handlers. -/
def handleEvent (s : State) (event : WindowEvent) (r : RenderResult) :
    State × List Action :=
  let p := s.input event
  if p.2 then (p.1, [])
  else
    match event with
    | .closeRequested => (p.1, [Action.exitLoop])
    | .keyboardInput pressed key => (p.1, on_keyboard_input pressed key)
    | .resized w h => p.1.resize { width := w, height := h }
    | .redrawRequested => on_redraw_requested p.1 r
    | _ => (p.1, [])

/-- States reachable by the program: an initial state produced by
`State::new` (for any window size and any nonempty capability list),
closed under processing any event with any render outcome.  The
`state.resize(state.size)` call in `run` coincides with processing a
`resized` event carrying the stored size, so it is covered by `step`. -/
inductive Reachable : State → Prop
  | init (sz : PhysicalSize) (f0 : TextureFormat) (rest : List TextureFormat) :
      Reachable (stateNew sz f0 rest).1
  | step (s : State) (event : WindowEvent) (r : RenderResult) :
      Reachable s → Reachable (handleEvent s event r).1

/-- The "cycle pipeline" event: a pressed Space key. -/
def spacePress : WindowEvent := WindowEvent.keyboardInput true (some KeyCode.space)

/-- `k` successive Space presses fed to `State::input`. -/
def pressIter : Nat → State → State
  | 0, s => s
  | k + 1, s => pressIter k (s.input spacePress).1

/-- A concrete initial state used to instantiate universally quantified
theorems: window size 4×3, a single capability format. -/
def testState : State := (stateNew ⟨4, 3⟩ ⟨0, true⟩ []).1

/-- C1: for positive (w,h), `resize` writes exactly (w,h) into the stored
configuration and stored size and issues one `surface.configure`; for a
zero dimension it is a no-op: state (configuration and size included)
unchanged, no actions. -/
theorem C1_resize_configure (s : State) (w h : Nat) :
    (0 < w → 0 < h →
      (s.resize ⟨w, h⟩).1.surface_configuration.width = w ∧
      (s.resize ⟨w, h⟩).1.surface_configuration.height = h ∧
      (s.resize ⟨w, h⟩).1.size = ⟨w, h⟩ ∧
      (s.resize ⟨w, h⟩).2 = [Action.surfaceConfigure w h]) ∧
    ((w = 0 ∨ h = 0) →
      (s.resize ⟨w, h⟩).1 = s ∧ (s.resize ⟨w, h⟩).2 = []) := by
  constructor
  · intro hw hh
    simp [State.resize, hw, hh]
  · intro h0
    have hneg : ¬ (0 < (⟨w, h⟩ : PhysicalSize).width ∧ 0 < (⟨w, h⟩ : PhysicalSize).height) := by
      simp only [PhysicalSize.mk.injEq]
      omega
    simp [State.resize, hneg]

/-- Witness for C1 at a concrete state and sizes 2×5 (positive) and
0×5 (zero width). -/
theorem C1_witness :
    ((testState.resize ⟨2, 5⟩).1.surface_configuration.width = 2 ∧
      (testState.resize ⟨2, 5⟩).2 = [Action.surfaceConfigure 2 5]) ∧
    (testState.resize ⟨0, 5⟩).1 = testState :=
  ⟨⟨((C1_resize_configure testState 2 5).1 (by decide) (by decide)).1,
    ((C1_resize_configure testState 2 5).1 (by decide) (by decide)).2.2.2⟩,
   ((C1_resize_configure testState 0 5).2 (Or.inl rfl)).1⟩

/-- C2: on a `Lost` or `Outdated` acquisition outcome the redraw handler
performs exactly one `resize` call, with the stored size from before the
error as its argument (and, when that size is positive, exactly one
underlying `surface.configure` with that same size); it submits no draw,
does not exit the loop (so the already-requested next redraw retries
acquisition), and the resulting state is that of `resize(stored size)`. -/
theorem C2_lost_outdated (s : State) (e : SurfaceError)
    (he : e = SurfaceError.Lost ∨ e = SurfaceError.Outdated) :
    (on_redraw_requested s (.err e)).2.filter isResizeCall
        = [Action.resizeCall s.size.width s.size.height] ∧
    Action.draw ∉ (on_redraw_requested s (.err e)).2 ∧
    Action.exitLoop ∉ (on_redraw_requested s (.err e)).2 ∧
    Action.requestRedraw ∈ (on_redraw_requested s (.err e)).2 ∧
    (0 < s.size.width ∧ 0 < s.size.height →
      (on_redraw_requested s (.err e)).2.filter isSurfaceConfigure
        = [Action.surfaceConfigure s.size.width s.size.height]) ∧
    (on_redraw_requested s (.err e)).1 = (s.resize s.size).1 := by
  by_cases hpos : 0 < s.size.width ∧ 0 < s.size.height <;>
    rcases he with rfl | rfl <;>
      simp [on_redraw_requested, matchRenderError, renderActions, State.update,
        State.resize, hpos, isResizeCall, isSurfaceConfigure]

/-- Witness for C2 at a concrete state with stored size 4×3 and a `Lost`
outcome. -/
theorem C2_witness :
    (on_redraw_requested testState (.err SurfaceError.Lost)).2.filter isResizeCall
        = [Action.resizeCall testState.size.width testState.size.height] ∧
    Action.draw ∉ (on_redraw_requested testState (.err SurfaceError.Lost)).2 :=
  ⟨(C2_lost_outdated testState SurfaceError.Lost (Or.inl rfl)).1,
   (C2_lost_outdated testState SurfaceError.Lost (Or.inl rfl)).2.1⟩

/-- C3: on an `OutOfMemory` or `Other` acquisition outcome the redraw
handler logs at error severity and exits the event loop; the actions
produced by the error classification contain no redraw request (the only
`requestRedraw` of the tick precedes acquisition), and no draw is
submitted. -/
theorem C3_fatal_error (s : State) (e : SurfaceError)
    (he : e = SurfaceError.OutOfMemory ∨ e = SurfaceError.Other) :
    (on_redraw_requested s (.err e)).2
        = [Action.requestRedraw, Action.logError, Action.exitLoop] ∧
    (matchRenderError s (.err e)).2 = [Action.logError, Action.exitLoop] ∧
    Action.requestRedraw ∉ (matchRenderError s (.err e)).2 ∧
    Action.draw ∉ (on_redraw_requested s (.err e)).2 := by
  rcases he with rfl | rfl <;>
    simp [on_redraw_requested, matchRenderError, renderActions, State.update]

/-- Witness for C3 at a concrete state and an `OutOfMemory` outcome. -/
theorem C3_witness :
    (on_redraw_requested testState (.err SurfaceError.OutOfMemory)).2
        = [Action.requestRedraw, Action.logError, Action.exitLoop] :=
  (C3_fatal_error testState SurfaceError.OutOfMemory (Or.inl rfl)).1

/-- C7: on a `Timeout` acquisition outcome the redraw handler logs a
warning and nothing else: no reconfiguration (neither a `resize` call
nor a `surface.configure`), no draw, and the state — in particular the
clear color and the active pipeline index — is unchanged. -/
theorem C7_timeout (s : State) :
    (matchRenderError s (.err SurfaceError.Timeout)).2 = [Action.logWarn] ∧
    (matchRenderError s (.err SurfaceError.Timeout)).1 = s ∧
    (on_redraw_requested s (.err SurfaceError.Timeout)).2
        = [Action.requestRedraw, Action.logWarn] ∧
    (on_redraw_requested s (.err SurfaceError.Timeout)).1 = s ∧
    (on_redraw_requested s (.err SurfaceError.Timeout)).1.clear_color = s.clear_color ∧
    (on_redraw_requested s (.err SurfaceError.Timeout)).1.active_render_pipeline_index
        = s.active_render_pipeline_index := by
  simp [on_redraw_requested, matchRenderError, renderActions, State.update]

/-- C5: a `CursorMoved` event at pixel position (px,py) on stored size
(w,h) sets the clear color to r = px/w, g = py/h, b = (px/w+py/h)/2,
a = 1 (no clamping) and is reported as consumed; at normalised position
(0.25, 0.75) — that is, px = w/4 and py = 3h/4 — the result is exactly
{r:1/4, g:3/4, b:1/2, a:1}. -/
theorem C5_cursor_color (s : State) (px py : ℚ)
    (hw : 0 < s.size.width) (hh : 0 < s.size.height) :
    ((s.input (.cursorMoved px py)).1.clear_color =
      { r := px / (s.size.width : ℚ)
        g := py / (s.size.height : ℚ)
        b := (px / (s.size.width : ℚ) + py / (s.size.height : ℚ)) / 2
        a := 1 }) ∧
    (s.input (.cursorMoved px py)).2 = true ∧
    (px = (s.size.width : ℚ) / 4 → py = 3 * (s.size.height : ℚ) / 4 →
      (s.input (.cursorMoved px py)).1.clear_color
        = { r := 1/4, g := 3/4, b := 1/2, a := 1 }) := by
  refine ⟨rfl, rfl, ?_⟩
  intro hx hy
  have hw0 : ((s.size.width : Nat) : ℚ) ≠ 0 := by
    exact_mod_cast Nat.pos_iff_ne_zero.mp hw
  have hh0 : ((s.size.height : Nat) : ℚ) ≠ 0 := by
    exact_mod_cast Nat.pos_iff_ne_zero.mp hh
  subst hx hy
  simp only [State.input, Color.mk.injEq]
  refine ⟨?_, ?_, ?_, trivial⟩ <;> field_simp <;> ring

/-- Witness for C5 at a concrete state of stored size 4×3 with the
cursor at pixel (1, 9/4), i.e. normalised (0.25, 0.75). -/
theorem C5_witness :
    0 < testState.size.width ∧
    (testState.input (.cursorMoved 1 (9/4))).1.clear_color
      = { r := 1/4, g := 3/4, b := 1/2, a := 1 } := by
  refine ⟨by decide, ?_⟩
  exact (C5_cursor_color testState 1 (9/4) (by decide) (by decide)).2.2
    (by norm_num [testState, stateNew]) (by norm_num [testState, stateNew])

/-- C6 counterexample: `State::new` applies the initial configuration
with the window's reported size unconditionally, so a window reporting
size 0×0 gets a zero-area `surface.configure` during construction —
refuting "a zero-area configuration is never applied". -/
theorem C6_counterexample :
    Action.surfaceConfigure 0 0 ∈ (stateNew ⟨0, 0⟩ ⟨0, true⟩ []).2 ∧ ¬ (0 : Nat) < 0 := by
  exact ⟨by simp [stateNew], by omega⟩

/-- Any `surface.configure` emitted by `State::resize` has strictly
positive width and height. -/
theorem resize_configure_pos (s : State) (sz : PhysicalSize) (w h : Nat)
    (hmem : Action.surfaceConfigure w h ∈ (s.resize sz).2) : 0 < w ∧ 0 < h := by
  unfold State.resize at hmem
  by_cases hpos : 0 < sz.width ∧ 0 < sz.height
  · rw [if_pos hpos] at hmem
    simp only [List.mem_singleton, Action.surfaceConfigure.injEq] at hmem
    obtain ⟨rfl, rfl⟩ := hmem
    exact hpos
  · rw [if_neg hpos] at hmem
    simp at hmem

/-- Any `surface.configure` emitted by the render-error classification
has strictly positive width and height. -/
theorem matchRenderError_configure_pos (s : State) (r : RenderResult) (w h : Nat)
    (hmem : Action.surfaceConfigure w h ∈ (matchRenderError s r).2) :
    0 < w ∧ 0 < h := by
  cases r with
  | ok => simp [matchRenderError] at hmem
  | err e =>
    cases e with
    | Lost =>
        exact resize_configure_pos s s.size w h (by simpa [matchRenderError] using hmem)
    | Outdated =>
        exact resize_configure_pos s s.size w h (by simpa [matchRenderError] using hmem)
    | OutOfMemory => simp [matchRenderError] at hmem
    | Other => simp [matchRenderError] at hmem
    | Timeout => simp [matchRenderError] at hmem

/-- C6 amended: every `surface.configure` applied while processing any
event (all of which go through `State::resize`) has strictly positive
width and height — zero-area resizes retain the prior configuration;
only the initial configuration in `State::new` is applied unchecked. -/
theorem C6_runtime_configure_pos (s : State) (event : WindowEvent) (r : RenderResult)
    (w h : Nat)
    (hmem : Action.surfaceConfigure w h ∈ (handleEvent s event r).2) :
    0 < w ∧ 0 < h := by
  cases event with
  | closeRequested => simp [handleEvent, State.input] at hmem
  | keyboardInput pressed key =>
      cases pressed with
      | false =>
          rcases key with _ | k
          · simp [handleEvent, State.input, on_keyboard_input] at hmem
          · cases k <;> simp [handleEvent, State.input, on_keyboard_input] at hmem
      | true =>
          rcases key with _ | k
          · simp [handleEvent, State.input, on_keyboard_input] at hmem
          · cases k <;> simp [handleEvent, State.input, on_keyboard_input] at hmem
  | resized w2 h2 =>
      exact resize_configure_pos _ ⟨w2, h2⟩ w h
        (by simpa [handleEvent, State.input] using hmem)
  | redrawRequested =>
      cases r with
      | ok =>
          simp [handleEvent, State.input, on_redraw_requested, State.update,
            renderActions, matchRenderError] at hmem
      | err e =>
          exact matchRenderError_configure_pos _ (.err e) w h
            (by simpa [handleEvent, State.input, on_redraw_requested, State.update,
                  renderActions] using hmem)
  | cursorMoved px py => simp [handleEvent, State.input] at hmem
  | otherEvent => simp [handleEvent, State.input] at hmem

/-- Witness for the amended C6: a resize event to 2×3 applies a
configure whose dimensions the theorem shows positive. -/
theorem C6_runtime_witness :
    Action.surfaceConfigure 2 3 ∈ (handleEvent testState (.resized 2 3) .ok).2 ∧
    (0 : Nat) < 2 ∧ (0 : Nat) < 3 :=
  ⟨by decide, C6_runtime_configure_pos testState (.resized 2 3) .ok 2 3 (by decide)⟩

/-- `List.find?` returns the element at the first index satisfying the
predicate. -/
theorem find?_first_index {α : Type} (p : α → Bool) :
    ∀ (l : List α) (i : Nat) (hi : i < l.length),
      p (l.get ⟨i, hi⟩) = true →
      (∀ j (hj : j < i), p (l.get ⟨j, Nat.lt_trans hj hi⟩) = false) →
      l.find? p = some (l.get ⟨i, hi⟩)
  | [], i, hi, _, _ => absurd hi (by simp)
  | a :: t, 0, _, hp, _ => by
      simp only [List.get] at hp ⊢
      simp [List.find?_cons_of_pos, hp]
  | a :: t, i + 1, hi, hp, hprev => by
      have h0 : p a = false := by simpa using hprev 0 (Nat.succ_pos i)
      have ht := find?_first_index p t i (Nat.lt_of_succ_lt_succ (by simpa using hi))
        (by simpa using hp)
        (fun j hj => by simpa using hprev (j + 1) (Nat.succ_lt_succ hj))
      simp only [List.get]
      rw [List.find?_cons_of_neg _ (by simp [h0]), ht]

/-- C8: the chosen surface format is the first supported format flagged
sRGB; if no supported format is flagged sRGB, it is the first supported
format. -/
theorem C8_format_selection (f0 : TextureFormat) (rest : List TextureFormat) :
    ((∀ f, f ∈ f0 :: rest → f.srgb = false) → surfaceFormat f0 rest = f0) ∧
    (∀ (i : Nat) (hi : i < (f0 :: rest).length),
      ((f0 :: rest).get ⟨i, hi⟩).srgb = true →
      (∀ j (hj : j < i), ((f0 :: rest).get ⟨j, Nat.lt_trans hj hi⟩).srgb = false) →
      surfaceFormat f0 rest = (f0 :: rest).get ⟨i, hi⟩) := by
  constructor
  · intro hall
    have hnone : (f0 :: rest).find? (fun f => f.srgb) = none := by
      rw [List.find?_eq_none]
      intro x hx
      simp [hall x hx]
    simp [surfaceFormat, hnone]
  · intro i hi hp hprev
    have hfound := find?_first_index (fun f => f.srgb) (f0 :: rest) i hi hp hprev
    simp [surfaceFormat, hfound]

/-- Witness for C8: among formats [non-sRGB 5, sRGB 6, sRGB 7] the
first sRGB-flagged format (id 6) is chosen. -/
theorem C8_witness :
    surfaceFormat ⟨5, false⟩ [⟨6, true⟩, ⟨7, true⟩] = ⟨6, true⟩ := by
  have h := (C8_format_selection ⟨5, false⟩ [⟨6, true⟩, ⟨7, true⟩]).2 1 (by decide)
    (by decide)
    (fun j hj => by
      have hj0 : j = 0 := by omega
      subst hj0
      exact rfl)
  simpa using h

/-- The inductive invariant of reachable states: the pipeline list is
exactly the two pipelines compiled in `State::new`, the active index is
below 2, and the stored size agrees with the stored configuration's
dimensions. -/
def Inv (s : State) : Prop :=
  s.render_pipelines = [{ shader := 0 }, { shader := 1 }] ∧
  s.active_render_pipeline_index < 2 ∧
  s.size.width = s.surface_configuration.width ∧
  s.size.height = s.surface_configuration.height

/-- `State::resize` preserves the invariant (it writes size and
configuration dimensions together, or neither). -/
theorem resize_inv (s : State) (sz : PhysicalSize) (h : Inv s) :
    Inv (s.resize sz).1 := by
  obtain ⟨hp, hi, hw, hh⟩ := h
  unfold State.resize
  by_cases hpos : 0 < sz.width ∧ 0 < sz.height
  · rw [if_pos hpos]
    exact ⟨hp, hi, rfl, rfl⟩
  · rw [if_neg hpos]
    exact ⟨hp, hi, hw, hh⟩

/-- `State::input` preserves the invariant (it touches only the clear
color and — for Space — the index, which it keeps below 2). -/
theorem input_inv (s : State) (event : WindowEvent) (h : Inv s) :
    Inv (s.input event).1 := by
  obtain ⟨hp, hi, hw, hh⟩ := h
  cases event with
  | cursorMoved px py => exact ⟨hp, hi, hw, hh⟩
  | keyboardInput pressed key =>
      cases pressed with
      | false =>
          rcases key with _ | k
          · exact ⟨hp, hi, hw, hh⟩
          · cases k <;> exact ⟨hp, hi, hw, hh⟩
      | true =>
          rcases key with _ | k
          · exact ⟨hp, hi, hw, hh⟩
          · cases k with
            | space => exact ⟨hp, Nat.mod_lt _ (by omega), hw, hh⟩
            | escape => exact ⟨hp, hi, hw, hh⟩
            | otherKey => exact ⟨hp, hi, hw, hh⟩
  | closeRequested => exact ⟨hp, hi, hw, hh⟩
  | resized w2 h2 => exact ⟨hp, hi, hw, hh⟩
  | redrawRequested => exact ⟨hp, hi, hw, hh⟩
  | otherEvent => exact ⟨hp, hi, hw, hh⟩

/-- The render-error classification preserves the invariant. -/
theorem matchRenderError_inv (s : State) (r : RenderResult) (h : Inv s) :
    Inv (matchRenderError s r).1 := by
  cases r with
  | ok => exact h
  | err e =>
      cases e with
      | Lost => exact resize_inv s s.size h
      | Outdated => exact resize_inv s s.size h
      | OutOfMemory => exact h
      | Other => exact h
      | Timeout => exact h

/-- Processing any event with any render outcome preserves the
invariant. -/
theorem handleEvent_inv (s : State) (event : WindowEvent) (r : RenderResult)
    (h : Inv s) : Inv (handleEvent s event r).1 := by
  have h1 : Inv (s.input event).1 := input_inv s event h
  unfold handleEvent
  by_cases hc : (s.input event).2 = true
  · rw [if_pos hc]
    exact h1
  · rw [if_neg hc]
    cases event with
    | closeRequested => exact h1
    | keyboardInput pressed key => exact h1
    | resized w2 h2 => exact resize_inv _ _ h1
    | redrawRequested => exact matchRenderError_inv _ r h1
    | cursorMoved px py => exact h1
    | otherEvent => exact h1

/-- Every reachable state satisfies the invariant. -/
theorem reachable_inv (s : State) (h : Reachable s) : Inv s := by
  induction h with
  | init sz f0 rest => exact ⟨rfl, Nat.zero_lt_two, rfl, rfl⟩
  | step s event r hs ih => exact handleEvent_inv s event r ih

/-- The index of `pressIter` under `k` Space presses, given a start
index below 2. -/
theorem pressIter_index (k : Nat) (s : State)
    (hi : s.active_render_pipeline_index < 2) :
    (pressIter k s).active_render_pipeline_index
      = (s.active_render_pipeline_index + k) % 2 := by
  induction k generalizing s with
  | zero => simp [pressIter, Nat.mod_eq_of_lt hi]
  | succ k ih =>
      have hstep : ((s.input spacePress).1).active_render_pipeline_index
          = (s.active_render_pipeline_index + 1) % 2 := rfl
      have hlt : ((s.input spacePress).1).active_render_pipeline_index < 2 := by
        rw [hstep]
        exact Nat.mod_lt _ (by omega)
      show (pressIter k (s.input spacePress).1).active_render_pipeline_index = _
      rw [ih _ hlt, hstep]
      omega

/-- C4: with N the number of compiled pipeline variants (always 2 in
this program), a Space press is consumed and advances the index from i
to (i+1) mod N; k presses land on (i+k) mod N, the index never leaves
[0, N), and one full cycle of N presses visits every index exactly
once. -/
theorem C4_cycle_pipeline (s : State) (h : Reachable s) :
    1 ≤ s.render_pipelines.length ∧
    (s.input spacePress).2 = true ∧
    ((s.input spacePress).1.active_render_pipeline_index
        = (s.active_render_pipeline_index + 1) % s.render_pipelines.length) ∧
    (∀ k, (pressIter k s).active_render_pipeline_index
        = (s.active_render_pipeline_index + k) % s.render_pipelines.length) ∧
    (∀ k, (pressIter k s).active_render_pipeline_index < s.render_pipelines.length) ∧
    (∀ j, j < s.render_pipelines.length →
        ∃ k, k < s.render_pipelines.length ∧
          (pressIter k s).active_render_pipeline_index = j) ∧
    (∀ k1 k2, k1 < s.render_pipelines.length → k2 < s.render_pipelines.length →
        (pressIter k1 s).active_render_pipeline_index
          = (pressIter k2 s).active_render_pipeline_index → k1 = k2) := by
  obtain ⟨hp, hi, -, -⟩ := reachable_inv s h
  have hlen : s.render_pipelines.length = 2 := by rw [hp]; rfl
  rw [hlen]
  refine ⟨by omega, rfl, ?_, ?_, ?_, ?_, ?_⟩
  · exact pressIter_index 1 s hi
  · exact fun k => pressIter_index k s hi
  · intro k
    rw [pressIter_index k s hi]
    exact Nat.mod_lt _ (by omega)
  · intro j hj
    refine ⟨(j + 2 - s.active_render_pipeline_index) % 2, Nat.mod_lt _ (by omega), ?_⟩
    rw [pressIter_index _ s hi]
    omega
  · intro k1 k2 h1 h2 heq
    rw [pressIter_index k1 s hi, pressIter_index k2 s hi] at heq
    omega

/-- Witness for C4 at a concrete reachable state: three presses from
index 0 end at index 1 = (0+3) mod 2, and the press is consumed. -/
theorem C4_witness :
    (pressIter 3 testState).active_render_pipeline_index = 1 ∧
    (testState.input spacePress).2 = true := by
  have h := C4_cycle_pipeline testState (Reachable.init ⟨4, 3⟩ ⟨0, true⟩ [])
  refine ⟨?_, h.2.1⟩
  rw [h.2.2.2.1 3]
  decide

/-- C9: in every reachable state, the stored size equals the stored
surface configuration's dimensions; both are set from the same values at
construction and `resize` is the only mutator, updating both together. -/
theorem C9_size_matches_configuration (s : State) (h : Reachable s) :
    s.size.width = s.surface_configuration.width ∧
    s.size.height = s.surface_configuration.height :=
  ⟨(reachable_inv s h).2.2.1, (reachable_inv s h).2.2.2⟩

/-- Witness for C9 at a concrete reachable state. -/
theorem C9_witness :
    testState.size.width = testState.surface_configuration.width ∧
    testState.size.height = testState.surface_configuration.height :=
  C9_size_matches_configuration testState (Reachable.init ⟨4, 3⟩ ⟨0, true⟩ [])

/-- C10: in every reachable state the active pipeline index is a valid
index into the pipeline list, so the unchecked indexing
`render_pipelines[active_render_pipeline_index]` in `State::render`
never goes out of bounds. -/
theorem C10_index_within_bounds (s : State) (h : Reachable s) :
    s.active_render_pipeline_index < s.render_pipelines.length := by
  obtain ⟨hp, hi, -, -⟩ := reachable_inv s h
  rw [hp]
  simpa using hi

/-- Witness for C10 at a concrete reachable state. -/
theorem C10_witness :
    testState.active_render_pipeline_index < testState.render_pipelines.length :=
  C10_index_within_bounds testState (Reachable.init ⟨4, 3⟩ ⟨0, true⟩ [])

end LearnWgpu
